import Mathlib

/-! Verification of the Pserv FITS-to-SQL conversion core.

Shallow embedding of `python/desc/pserv/Pserv.py`: the bit-flag packing
codec (`BinTableData.pack_flags`), the column materializer
(`BinTableData.__init__`), the CSV emitter (`create_csv_file_from_fits`),
the schema emitter (`create_schema_from_fits` / `write_schema_column` /
`write_bit_schema_column`) and the load-path header check
(`DbConnection.check_column_names`), together with theorems settling the
specification claims about them.

Python integers are modelled as `Nat`/`Int`, boolean flag vectors as
`List Bool`, ordered dicts as ordered association lists, raised
exceptions as `Except.error` values.  Numeric cell values are modelled as
an integer payload together with the three non-finite markers
(`nan`, `+inf`, `-inf`); the code never computes with cell values, it
only tests `np.isfinite` on them, which the model captures exactly.
-/

namespace Pserv

/-! Definitions.

Bit-flag codec: `BinTableData.pack_flags` (Pserv.py lines 245-265). -/

/-- The value packed from one chunk (`subarr`) of boolean flags:
`sum([long(2**i) for i, flag in enumerate(subarr) if flag])`
(Pserv.py line 263). Bit `i` of the result is set iff flag `i` of the
chunk is true. -/
def pack_chunk (subarr : List Bool) : Nat :=
  ((subarr.enum.filter (fun p => p.2)).map (fun p => 2 ^ p.1)).sum

/-- Model of `BinTableData.pack_flags(flags, nbits)` (Pserv.py lines 245-265):
`num_ints = int(np.ceil(float(len(flags))/nbits))` is the chunk count
(`(len + nbits - 1) / nbits` in exact arithmetic for `nbits > 0`),
`subarrs = [flags[i*nbits:(i+1)*nbits] for i in range(num_ints)]` are the
chunks (Python slice `l[a:b]` is `(l.drop a).take (b - a)`), and each
chunk is packed by the enumerate/sum comprehension (`pack_chunk`). -/
def pack_flags (flags : List Bool) (nbits : Nat) : List Nat :=
  (List.range ((flags.length + nbits - 1) / nbits)).map
    (fun i => pack_chunk ((flags.drop (i * nbits)).take nbits))

/-- Proof helper: the packed sum taken over an enumeration starting at
index `n`. -/
def packFrom (n : Nat) (l : List Bool) : Nat :=
  (((l.enumFrom n).filter (fun p => p.2)).map (fun p => 2 ^ p.1)).sum

/-! Data model for the materializer and emitters -/

/-- A Python numeric cell value as far as this code inspects it: a finite
number, or one of the non-finite IEEE values that `np.isfinite`
rejects. -/
inductive PyNum where
  | finite (x : Int)
  | nan
  | posInf
  | negInf
  deriving DecidableEq

/-- Python `np.isfinite` on a numeric value. -/
def PyNum.isfinite : PyNum → Bool
  | PyNum.finite _ => true
  | _ => false

/-- A cell value flowing into the CSV writer: a string or a number
(`isinstance(x, str)` is the discrimination the code performs). -/
inductive PyVal where
  | str (s : String)
  | num (n : PyNum)
  deriving DecidableEq

/-- The Python exceptions this code can raise. -/
inductive PyErr where
  | keyError (key : String)
  | valueError
  | runtimeError (msg : String)
  | indexError
  deriving DecidableEq

/-- The per-record data of one FITS binary-table column, as served by
`bintable.data[col.name]`: either one scalar value per record or one
fixed-width boolean flag vector per record. astropy guarantees the shape
agrees with the declared format code (format ending in `X` iff the data
are flag vectors). -/
inductive ColumnData where
  | scalars (vals : List PyVal)
  | flags (rows : List (List Bool))
  deriving DecidableEq

/-- An `astropy.io.fits` binary-table column: `name`, `format` code
string, and its per-record data. -/
structure FitsColumn where
  name : String
  format : String
  data : ColumnData
  deriving DecidableEq

/-- Python 2 `zip(*xss)`: transpose truncated to the shortest list;
`zip()` of no lists is `[]`. -/
def zipStar {β : Type} : List (List β) → List (List β)
  | [] => []
  | [xs] => xs.map (fun x => [x])
  | xs :: ys :: t => List.zipWith List.cons xs (zipStar (ys :: t))

/-- Python `format[-1] == 'X'` / `format_[-1] == 'X'`: the last character
of the format code is `X`.  (Python raises `IndexError` on an empty
format string; FITS format codes are never empty, and the model returns
`false` there.) -/
def isBitFormat (s : String) : Bool := s.data.getLast? == some 'X'

/-- Decimal-digit parsing of a character list, as Python
`int(...)`/`float(...)` succeed on the plain digit strings that FITS
repeat counts are; any other content is a `ValueError` (`none`). -/
def parseNat (cs : List Char) : Option Nat :=
  match cs with
  | [] => none
  | _ =>
    cs.foldl
      (fun acc c =>
        match acc with
        | some n => if c.isDigit then some (n * 10 + (c.toNat - 48)) else none
        | none => none)
      (some 0)

/-- Python `int(format_[:-1])` / `float(format_[:-1])`: the numeric
prefix of a format code, dropping the trailing type letter. -/
def parseNatInit (s : String) : Option Nat := parseNat s.data.dropLast

/-- Python `str.upper()` (for the ASCII column names used here). -/
def upper (s : String) : String := String.mk (s.data.map Char.toUpper)

/-- One column's contribution to `BinTableData.__init__` (Pserv.py lines
234-242).  A column whose format ends in `'X'` is packed:
`flag_cols = zip(*(self.pack_flags(x, nbits=nbits) for x in
bintable.data[col.name]))`, and output `i` (0-based) is registered as
`'%s%i' % (col.name.upper(), i + 1)` holding one `np.uint64` per record
(the packed values are below `2^64` for `nbits = 64`, so the conversion
is value-preserving).  Any other column is registered unchanged under its
own name.  The two mismatch branches (format `'X'` with scalar data and
vice versa) cannot arise from astropy, which derives the format code from
the stored data; they are modelled as contributing no columns. -/
def materializeColumn (nbits : Nat) (col : FitsColumn) :
    List (String × List PyVal) :=
  if isBitFormat col.format then
    match col.data with
    | ColumnData.flags rows =>
        (zipStar (rows.map (fun x => pack_flags x nbits))).enum.map
          (fun p => (upper col.name ++ toString (p.1 + 1),
            p.2.map (fun v => PyVal.num (PyNum.finite (Int.ofNat v)))))
    | ColumnData.scalars _ => []
  else
    match col.data with
    | ColumnData.scalars vals => [(col.name, vals)]
    | ColumnData.flags _ => []

/-- All columns registered by `BinTableData.__init__`, in declaration
order. -/
def binTableCols (nbits : Nat) (columns : List FitsColumn) :
    List (String × List PyVal) :=
  columns.flatMap (materializeColumn nbits)

/-- The materialized table: the ordered name-to-series mapping that
`BinTableData` (an `OrderedDict` subclass) holds, plus its `nrows`
attribute. -/
structure MaterializedTable where
  cols : List (String × List PyVal)
  nrows : Nat
  deriving DecidableEq

/-- Model of `BinTableData.__init__` (Pserv.py lines 224-243): register every
column, then `self.nrows = len(self.values()[0])` — an `IndexError` when
no column was registered. -/
def binTableData (nbits : Nat) (columns : List FitsColumn) :
    Except PyErr MaterializedTable :=
  match binTableCols nbits columns with
  | [] => Except.error PyErr.indexError
  | c :: _ => Except.ok ⟨binTableCols nbits columns, c.2.length⟩

/-- The `added_columns` loop of `create_csv_file_from_fits` (Pserv.py
lines 300-304): for each `(name, value)`, raise
`RuntimeError("Column named %s already exists in the binary table
data.")` if the name is already a key, else register
`np.array([value]*bintable_data.nrows)` under it. -/
def add_columns_to (t : MaterializedTable) (adds : List (String × PyVal)) :
    Except PyErr MaterializedTable :=
  adds.foldlM
    (fun t p =>
      if (t.cols.lookup p.1).isSome then
        Except.error (PyErr.runtimeError
          ("Column named " ++ p.1 ++ " already exists in the binary table data."))
      else
        Except.ok ⟨t.cols ++ [(p.1, List.replicate t.nrows p.2)], t.nrows⟩) t

/-- Lines 299-304 of `create_csv_file_from_fits`: build the
`BinTableData` (with the default `nbits = 64`) and apply the optional
`added_columns`. -/
def materialized (columns : List FitsColumn)
    (added_columns : Option (List (String × PyVal))) :
    Except PyErr MaterializedTable :=
  match binTableData 64 columns with
  | Except.error e => Except.error e
  | Except.ok t =>
    match added_columns with
    | none => Except.ok t
    | some adds => add_columns_to t adds

/-- The per-column value transforms of `create_csv_file_from_fits`: the
`callbacks` dict, keyed by column name.  A registered callback may itself
raise `KeyError` (modelled as `Except.error ()`); any other exception
type would propagate and is outside this model. -/
abbrev Callbacks := String → Option (List PyVal → Except Unit (List PyVal))

/-- The two-character NULL sentinel `'\N'` written for non-finite
values (in Python 2, `'\N'` is a backslash followed by `N`). -/
def nullMarker : String := "\\N"

/-- Per-value serialization (Pserv.py lines 324-325):
`x if isinstance(x, str) or np.isfinite(x) else '\N'`. -/
def csv_cell (x : PyVal) : PyVal :=
  match x with
  | PyVal.str s => PyVal.str s
  | PyVal.num n => if n.isfinite then PyVal.num n else PyVal.str nullMarker

/-- Column resolution (Pserv.py lines 313-322): a mapped name that is a
key of the table yields its series, transformed by `callbacks[colname]`
when that lookup and call succeed, with any `KeyError` (from the dict
lookup or from the callback itself) silently swallowed; any other name is
broadcast as a constant string column of `nrows` copies. -/
def resolve_column (t : MaterializedTable) (callbacks : Callbacks)
    (colname : String) : List PyVal :=
  match t.cols.lookup colname with
  | some coldata =>
    (match callbacks colname with
     | none => coldata
     | some f =>
       match f coldata with
       | Except.ok transformed => transformed
       | Except.error _ => coldata)
  | none => List.replicate t.nrows (PyVal.str colname)

/-- The data rows written (Pserv.py lines 312-326): resolve one series
per entry of `column_mapping.values()`, emit `zip(*tuple(columns))`
row-wise, serializing each value with `csv_cell`. -/
def csv_body (t : MaterializedTable) (mapping : List (String × String))
    (callbacks : Callbacks) : List (List PyVal) :=
  (zipStar (mapping.map (fun p => resolve_column t callbacks p.2))).map
    (fun row => row.map csv_cell)

/-- Model of `create_csv_file_from_fits` (Pserv.py lines 268-326), as the
pair (header row, data rows) it writes.  `column_mapping=None` defaults
to the identity mapping `OrderedDict([(name, name) for name in
bintable_data])`; the header is `list(column_mapping.keys())`. -/
def create_csv_file_from_fits (columns : List FitsColumn)
    (column_mapping : Option (List (String × String)))
    (callbacks : Callbacks)
    (added_columns : Option (List (String × PyVal))) :
    Except PyErr (List String × List (List PyVal)) :=
  match materialized columns added_columns with
  | Except.error e => Except.error e
  | Except.ok t =>
    let mapping := match column_mapping with
      | none => t.cols.map (fun p => (p.1, p.1))
      | some m => m
    Except.ok (mapping.map Prod.fst, csv_body t mapping callbacks)

/-! Schema emitter (Pserv.py lines 328-413) -/

/-- The single-quote character, `"'"` in the Python source. -/
def quoteChar : Char := Char.ofNat 39

/-- Python `format.strip("'")`: remove single quotes from both ends. -/
def stripQuotes (s : String) : String :=
  String.mk (((s.toList.dropWhile (fun c => c == quoteChar)).reverse.dropWhile
    (fun c => c == quoteChar)).reverse)

/-- The fixed format-code-to-SQL-type mapping of `write_schema_column`
(Pserv.py lines 373-377). -/
def type_map : List (String × String) :=
  [("1D", "DOUBLE"), ("1E", "FLOAT"), ("1K", "BIGINT"),
   ("1J", "INT"), ("1I", "SMALLINT")]

/-- Model of `write_bit_schema_column` (Pserv.py lines 387-413), as the list of
lines it writes: `num_bits = float(format_[:-1])` (a `ValueError` when
the prefix is not a numeral), `ncols = int(np.ceil(num_bits/64))`
(exact ceiling division on the integer prefix), and for each
`icol in range(ncols)` the line
`padding + '%s%i' % (column.name.upper(), icol+1) + ' BIGINT UNSIGNED,\n'`. -/
def write_bit_schema_column (column : FitsColumn) (padding : String) :
    Except PyErr (List String) :=
  let mysql_type := "BIGINT UNSIGNED"
  let colsize := 64
  let format_ := stripQuotes column.format
  match parseNatInit format_ with
  | none => Except.error PyErr.valueError
  | some num_bits =>
    Except.ok ((List.range ((num_bits + colsize - 1) / colsize)).map
      (fun icol =>
        padding ++ (upper column.name ++ toString (icol + 1)) ++ " "
          ++ mysql_type ++ ",\n"))

/-- Model of `write_schema_column` (Pserv.py lines 360-385), as the text it
writes: formats ending in `'X'` delegate to the bit path; otherwise a
multiplicity other than 1 is skipped (nothing written), and a
multiplicity-1 format is looked up in `type_map`, raising `KeyError`
(carrying the format code) when absent. -/
def write_schema_column (column : FitsColumn) (padding : String) :
    Except PyErr String :=
  let format_ := stripQuotes column.format
  if isBitFormat format_ then
    match write_bit_schema_column column padding with
    | Except.ok lines => Except.ok (String.join lines)
    | Except.error e => Except.error e
  else
    match parseNatInit format_ with
    | none => Except.error PyErr.valueError
    | some mult =>
      if mult ≠ 1 then Except.ok ""
      else
        match type_map.lookup format_ with
        | none => Except.error (PyErr.keyError format_)
        | some sql_type =>
          Except.ok (padding ++ column.name ++ " " ++ sql_type ++ ",\n")

/-- The schema lines for the FITS columns, concatenated in order with the
first raised exception propagating. -/
def schema_body (columns : List FitsColumn) (padding : String) :
    Except PyErr String :=
  match columns with
  | [] => Except.ok ""
  | col :: rest =>
    match write_schema_column col padding with
    | Except.error e => Except.error e
    | Except.ok line =>
      match schema_body rest padding with
      | Except.error e => Except.error e
      | Except.ok body => Except.ok (line ++ body)

/-- Model of `create_schema_from_fits` (Pserv.py lines 328-358), as the full text
written to the output file: `padding = 7*' '`, the
`create table if not exists <name> (` header, one entry per FITS column,
each `add_columns` entry verbatim with padding and `,\n`, and the closing
`primary key (<primary_key>)\n` and `)\n` lines, both padded. -/
def create_schema_from_fits (columns : List FitsColumn)
    (table_name : String) (primary_key : String) (add_columns : List String) :
    Except PyErr String :=
  let padding := "       "
  match schema_body columns padding with
  | Except.error e => Except.error e
  | Except.ok body =>
    Except.ok ("create table if not exists " ++ table_name ++ " (\n"
      ++ body
      ++ String.join (add_columns.map (fun c => padding ++ c ++ ",\n"))
      ++ padding ++ "primary key (" ++ primary_key ++ ")\n"
      ++ padding ++ ")\n")

/-! Load-path header check: `DbConnection.check_column_names`
(Pserv.py lines 172-199) -/

/-- Python `str.strip()`: remove leading and trailing whitespace (the
newline of `readline()` included). -/
def stripWhitespace (s : String) : String :=
  String.mk (((s.data.dropWhile Char.isWhitespace).reverse.dropWhile
    Char.isWhitespace).reverse)

/-- Helper for `str.split(',')`: accumulate the current field (reversed)
while scanning. -/
def splitCommasAux : List Char → List Char → List String
  | [], acc => [String.mk acc.reverse]
  | c :: rest, acc =>
    if c == ',' then String.mk acc.reverse :: splitCommasAux rest []
    else splitCommasAux rest (c :: acc)

/-- Python `str.split(',')`: split on every comma; the empty string
yields `[""]`. -/
def splitCommas (s : String) : List String := splitCommasAux s.data []

/-- The per-pair loop of `check_column_names`: the first name mismatch
raises `RuntimeError`. -/
def check_each : List (String × String) → Except PyErr Unit
  | [] => Except.ok ()
  | (csv_col, table_col) :: rest =>
    if csv_col ≠ table_col then
      Except.error (PyErr.runtimeError
        ("Column name mismatch between csv file and db table: "
          ++ csv_col ++ " vs " ++ table_col))
    else check_each rest

/-- Model of `check_column_names(column_names, csv_file)` given the first line of
the csv file: `csv_cols = csv_input.readline().strip().split(',')`, a
count check, then the pairwise loop over `zip(csv_cols, column_names)`. -/
def check_column_names (column_names : List String) (header_line : String) :
    Except PyErr Unit :=
  if (splitCommas (stripWhitespace header_line)).length ≠ column_names.length then
    Except.error (PyErr.runtimeError
      ("Number of columns in csv file do not match "
        ++ "the number of columns of db table."))
  else check_each ((splitCommas (stripWhitespace header_line)).zip column_names)

/-! Concrete inputs for the end-to-end scenario and witnesses -/

deriving instance DecidableEq for Except

/-- The scenario column `RA`, format `'1D'`, with two records. -/
def raColumn (a b : PyVal) : FitsColumn :=
  ⟨"RA", "1D", ColumnData.scalars [a, b]⟩

/-- First record of the scenario `FLAGS` column. -/
def flagsRecord1 : List Bool :=
  [true, false, true, true, false, true, true, true, false]

/-- The scenario column `FLAGS`, format `'9X'`, records
`[[T,F,T,T,F,T,T,T,F], [F]*9]`. -/
def flagsColumn : FitsColumn :=
  ⟨"FLAGS", "9X", ColumnData.flags [flagsRecord1, List.replicate 9 false]⟩

/-- An empty callbacks dict (`callbacks = {}`). -/
def noCallbacks : Callbacks := fun _ => none

/-- A callbacks dict whose entry for column `"A"` raises `KeyError` when
applied. -/
def failingCallbacks : Callbacks :=
  fun n => if n = "A" then some (fun _ => Except.error ()) else none

/-! Codec lemmas -/

lemma pack_chunk_eq_packFrom (l : List Bool) : pack_chunk l = packFrom 0 l := rfl

lemma packFrom_nil (n : Nat) : packFrom n [] = 0 := rfl

lemma packFrom_cons (n : Nat) (b : Bool) (t : List Bool) :
    packFrom n (b :: t) = (if b then 2 ^ n else 0) + packFrom (n + 1) t := by
  unfold packFrom
  rw [List.enumFrom_cons, List.filter_cons]
  cases b <;> simp

lemma packFrom_shift (n : Nat) (l : List Bool) :
    packFrom n l = 2 ^ n * packFrom 0 l := by
  induction l generalizing n with
  | nil => simp [packFrom_nil]
  | cons b t ih =>
    rw [packFrom_cons, packFrom_cons, ih (n + 1), ih 1]
    cases b <;> simp <;> ring

lemma pack_chunk_nil : pack_chunk [] = 0 := rfl

lemma pack_chunk_cons (b : Bool) (t : List Bool) :
    pack_chunk (b :: t) = (if b then 1 else 0) + 2 * pack_chunk t := by
  rw [pack_chunk_eq_packFrom, packFrom_cons, packFrom_shift 1,
    ← pack_chunk_eq_packFrom]
  cases b <;> norm_num

/-- Bit `i` of a packed chunk is flag `i` of the chunk (false beyond its
length). -/
lemma pack_chunk_testBit (l : List Bool) (i : Nat) :
    (pack_chunk l).testBit i = l.getD i false := by
  induction l generalizing i with
  | nil => simp [pack_chunk_nil]
  | cons b t ih =>
    rw [pack_chunk_cons]
    cases i with
    | zero =>
      rw [Nat.testBit_zero]
      cases b <;> simp [Nat.add_mul_mod_self_left]
    | succ j =>
      rw [Nat.testBit_succ]
      have hdiv : ((if b then 1 else 0) + 2 * pack_chunk t) / 2 = pack_chunk t := by
        cases b <;> simp <;> omega
      rw [hdiv, ih]
      simp

/-- A packed chunk fits in as many bits as the chunk has flags. -/
lemma pack_chunk_lt (l : List Bool) : pack_chunk l < 2 ^ l.length := by
  induction l with
  | nil => simp [pack_chunk_nil]
  | cons b t ih =>
    rw [pack_chunk_cons, List.length_cons, pow_succ]
    cases b <;> simp <;> omega

/-- A chunk with no true flag (in particular an empty chunk) packs to 0. -/
lemma pack_chunk_eq_zero (l : List Bool) (h : ∀ b ∈ l, b = false) :
    pack_chunk l = 0 := by
  induction l with
  | nil => rfl
  | cons b t ih =>
    rw [pack_chunk_cons, h b (by simp)]
    simp [ih (fun x hx => h x (by simp [hx]))]

lemma pack_flags_length (f : List Bool) (w : Nat) :
    (pack_flags f w).length = (f.length + w - 1) / w := by
  simp [pack_flags]

/-- The ceiling chunk count covers every flag: `len ≤ ceil(len/w) * w`. -/
lemma le_num_ints_mul (n w : Nat) (hw : 0 < w) :
    n ≤ ((n + w - 1) / w) * w := by
  have hd := Nat.div_add_mod (n + w - 1) w
  have hm : (n + w - 1) % w < w := Nat.mod_lt _ hw
  have hc : w * ((n + w - 1) / w) = ((n + w - 1) / w) * w := Nat.mul_comm _ _
  rw [hc] at hd
  generalize ((n + w - 1) / w) * w = t at hd ⊢
  omega

lemma pack_flags_getD (f : List Bool) (w k : Nat)
    (hk : k < (f.length + w - 1) / w) :
    (pack_flags f w).getD k 0 = pack_chunk ((f.drop (k * w)).take w) := by
  rw [pack_flags, List.getD_eq_getElem?_getD, List.getElem?_map,
    List.getElem?_range hk]
  rfl

lemma chunk_getD (f : List Bool) (w i : Nat) (hw : 0 < w) :
    ((f.drop (i / w * w)).take w).getD (i % w) false = f.getD i false := by
  have h1 : i % w < w := Nat.mod_lt _ hw
  rw [List.getD_eq_getElem?_getD, List.getD_eq_getElem?_getD,
    List.getElem?_take_of_lt h1, List.getElem?_drop]
  have hcomm : i / w * w = w * (i / w) := Nat.mul_comm _ _
  have hdm := Nat.div_add_mod i w
  have heq : i / w * w + i % w = i := by omega
  rw [heq]

/-! Materializer and emitter lemmas -/

lemma zipStar_length_of_eq {β : Type} (L : Nat) (xss : List (List β))
    (hne : xss ≠ []) (h : ∀ xs ∈ xss, xs.length = L) :
    (zipStar xss).length = L := by
  induction xss with
  | nil => exact absurd rfl hne
  | cons xs rest ih =>
    cases rest with
    | nil => simp [zipStar, h xs (by simp)]
    | cons ys t =>
      show (List.zipWith List.cons xs (zipStar (ys :: t))).length = L
      rw [List.length_zipWith, h xs (by simp),
        ih (by simp) (fun as ha => h as (List.mem_cons_of_mem _ ha))]
      exact Nat.min_self L

lemma map_fst_pair_map (l : List (String × List PyVal)) :
    (l.map (fun p => (p.1, p.1))).map Prod.fst = l.map Prod.fst := by
  induction l with
  | nil => rfl
  | cons p t ih => simp_all

/-- Reassociating the pieces of one bit-schema line. -/
lemma append_sql_type (X : String) :
    X ++ " " ++ "BIGINT UNSIGNED" ++ ",\n" = X ++ " BIGINT UNSIGNED,\n" := by
  rw [String.append_assoc, String.append_assoc]
  congr 1

lemma check_each_ok (ps : List (String × String)) :
    check_each ps = Except.ok () ↔ ∀ p ∈ ps, p.1 = p.2 := by
  induction ps with
  | nil => simp [check_each]
  | cons p rest ih =>
    obtain ⟨c, t⟩ := p
    by_cases h : c = t <;> simp [check_each, h, ih]

lemma zip_forall_eq_iff (as bs : List String) (h : as.length = bs.length) :
    (∀ p ∈ as.zip bs, p.1 = p.2) ↔ as = bs := by
  induction as generalizing bs with
  | nil =>
    cases bs with
    | nil => simp
    | cons b bs => simp at h
  | cons a as ih =>
    cases bs with
    | nil => simp at h
    | cons b bs =>
      rw [List.zip_cons_cons]
      constructor
      · intro hp
        have h1 := hp (a, b) (by simp)
        have h2 := (ih bs (by simpa using h)).mp
          (fun p hm => hp p (List.mem_cons_of_mem _ hm))
        simp at h1
        rw [h1, h2]
      · intro he p hm
        injection he with e1 e2
        rcases List.mem_cons.mp hm with h3 | h3
        · rw [h3]; simpa using e1
        · exact (ih bs (by simpa using h)).mpr e2 p h3

/-! Claim theorems -/

/-- C2: for every boolean sequence `f` and positive chunk width `w`,
`pack_flags f w` has exactly `ceil (len f / w)` elements; for every valid
index `i` into `f`, bit `i % w` of element `i / w` of the result (read as
`(pack_flags f w)[i / w] >>> (i % w) % 2`) equals `f[i]` — index 0 of a
chunk is the least-significant bit; and a chunk containing no true flags
(including an empty chunk) packs to 0. -/
theorem C2_pack_flags_correct (f : List Bool) (w : Nat) (hw : 0 < w) :
    (pack_flags f w).length = (f.length + w - 1) / w ∧
    (∀ i, i < f.length →
      ((pack_flags f w).getD (i / w) 0 >>> (i % w)) % 2
        = (if f.getD i false then 1 else 0)) ∧
    (∀ chunk : List Bool, (∀ b ∈ chunk, b = false) → pack_chunk chunk = 0) := by
  refine ⟨pack_flags_length f w, ?_, fun c hc => pack_chunk_eq_zero c hc⟩
  intro i hi
  have hk : i / w < (f.length + w - 1) / w := by
    rw [Nat.div_lt_iff_lt_mul hw]
    exact lt_of_lt_of_le hi (le_num_ints_mul f.length w hw)
  rw [pack_flags_getD f w _ hk]
  have ht := pack_chunk_testBit ((f.drop (i / w * w)).take w) (i % w)
  rw [chunk_getD f w i hw] at ht
  rw [Nat.shiftRight_eq_div_pow]
  rw [Nat.testBit_to_div_mod] at ht
  have h2 : pack_chunk ((f.drop (i / w * w)).take w) / 2 ^ (i % w) % 2 < 2 :=
    Nat.mod_lt _ (by omega)
  cases hfi : f.getD i false with
  | false => rw [hfi] at ht; simp at ht ⊢; omega
  | true => rw [hfi] at ht; simp at ht ⊢; omega

/-- Witness for C2 at `f = [true, false, true]`, `w = 2`: bit `1 % 2` of
element `1 / 2` of the packed result recovers `f[1] = false`. -/
theorem C2_witness :
    0 < 2 ∧
    ((pack_flags [true, false, true] 2).getD (1 / 2) 0 >>> (1 % 2)) % 2
      = (if ([true, false, true] : List Bool).getD 1 false then 1 else 0) :=
  ⟨by decide,
   (C2_pack_flags_correct [true, false, true] 2 (by decide)).2.1 1 (by decide)⟩

/-- C10: for every boolean sequence and positive `nbits`, each element of
`pack_flags` is strictly below `2 ^ nbits`, and every bit at or above the
actual chunk length (`min nbits (len - k * nbits)` for chunk `k`) — in
particular every bit at or above `nbits` — is unset. -/
theorem C10_pack_flags_bounded (flags : List Bool) (nbits : Nat)
    (hn : 0 < nbits) :
    (∀ v ∈ pack_flags flags nbits, v < 2 ^ nbits) ∧
    (∀ k j, min nbits (flags.length - k * nbits) ≤ j →
      Nat.testBit ((pack_flags flags nbits).getD k 0) j = false) := by
  clear hn
  constructor
  · intro v hv
    rw [pack_flags, List.mem_map] at hv
    obtain ⟨k, _, hk2⟩ := hv
    calc v = pack_chunk ((flags.drop (k * nbits)).take nbits) := hk2.symm
      _ < 2 ^ ((flags.drop (k * nbits)).take nbits).length := pack_chunk_lt _
      _ ≤ 2 ^ nbits := by
          apply Nat.pow_le_pow_right (by omega)
          simpa using Nat.min_le_left _ _
  · intro k j hj
    by_cases hk : k < (flags.length + nbits - 1) / nbits
    · rw [pack_flags_getD flags nbits k hk, pack_chunk_testBit]
      apply List.getD_eq_default
      simpa using hj
    · have h0 : (pack_flags flags nbits).getD k 0 = 0 := by
        apply List.getD_eq_default
        rw [pack_flags_length]
        omega
      rw [h0]
      exact Nat.zero_testBit j

/-- Witness for C10 at `flags = [true, true, true]`, `nbits = 2`:
the first packed element (value 3) is below `2 ^ 2`. -/
theorem C10_witness :
    0 < 2 ∧ (pack_flags [true, true, true] 2).getD 0 0 < 2 ^ 2 :=
  ⟨by decide,
   (C10_pack_flags_bounded [true, true, true] 2 (by decide)).1
     ((pack_flags [true, true, true] 2).getD 0 0) (by decide)⟩

/-- C1: for a bit-array column of name `name` and declared total bit
width `W` (format code `W` followed by `X`, quote-free), holding at least
one record of `W` flags, the materializer (`BinTableData.__init__`) and
the schema emitter (`write_bit_schema_column`) independently compute the
same `ceil(W/64)` output columns, named `UPPERCASE(name)` followed by the
1-based index. -/
theorem C1_bit_column_consistency (name fmt padding : String) (W : Nat)
    (rows : List (List Bool)) (hne : rows ≠ [])
    (hlen : ∀ r ∈ rows, r.length = W)
    (hX : isBitFormat fmt = true)
    (hstrip : stripQuotes fmt = fmt)
    (hparse : parseNatInit fmt = some W) :
    (materializeColumn 64 ⟨name, fmt, ColumnData.flags rows⟩).map Prod.fst
      = (List.range ((W + 63) / 64)).map
          (fun i => upper name ++ toString (i + 1)) ∧
    write_bit_schema_column ⟨name, fmt, ColumnData.flags rows⟩ padding
      = Except.ok ((List.range ((W + 63) / 64)).map
          (fun i => padding ++ (upper name ++ toString (i + 1))
            ++ " BIGINT UNSIGNED,\n")) := by
  constructor
  · have h1 : (materializeColumn 64 ⟨name, fmt, ColumnData.flags rows⟩).map Prod.fst
        = (zipStar (rows.map (fun x => pack_flags x 64))).enum.map
            (fun p => upper name ++ toString (p.1 + 1)) := by
      simp [materializeColumn, hX, List.map_map]
    have hzl : (zipStar (rows.map (fun x => pack_flags x 64))).length
        = (W + 63) / 64 := by
      apply zipStar_length_of_eq
      · simpa using hne
      · intro ps hps
        rw [List.mem_map] at hps
        obtain ⟨r, hr, hrr⟩ := hps
        rw [← hrr, pack_flags_length, hlen r hr]
        omega
    have h2 : (fun p : Nat × List Nat => upper name ++ toString (p.1 + 1))
        = (fun i => upper name ++ toString (i + 1)) ∘ Prod.fst := rfl
    rw [h1, h2, ← List.map_map, List.enum_map_fst, hzl]
  · have h3 : write_bit_schema_column ⟨name, fmt, ColumnData.flags rows⟩ padding
        = Except.ok ((List.range ((W + 64 - 1) / 64)).map
            (fun icol =>
              padding ++ (upper name ++ toString (icol + 1)) ++ " "
                ++ "BIGINT UNSIGNED" ++ ",\n")) := by
      simp [write_bit_schema_column, hstrip, hparse]
    rw [h3]
    congr 1
    apply List.map_congr_left
    intro a _
    exact append_sql_type _

/-- Witness for C1 at `name = "name"`, format `'142X'`, one all-false
142-bit record: both sides produce the three columns
`NAME1, NAME2, NAME3`. -/
theorem C1_witness :
    ([List.replicate 142 false] ≠ ([] : List (List Bool))) ∧
    (isBitFormat "142X" = true) ∧
    (stripQuotes "142X" = "142X") ∧
    (parseNatInit "142X" = some 142) ∧
    ((materializeColumn 64 ⟨"name", "142X",
        ColumnData.flags [List.replicate 142 false]⟩).map Prod.fst
      = (List.range ((142 + 63) / 64)).map
          (fun i => upper "name" ++ toString (i + 1)) ∧
     write_bit_schema_column ⟨"name", "142X",
        ColumnData.flags [List.replicate 142 false]⟩ "       "
      = Except.ok ((List.range ((142 + 63) / 64)).map
          (fun i => "       " ++ (upper "name" ++ toString (i + 1))
            ++ " BIGINT UNSIGNED,\n"))) :=
  ⟨by decide, by decide, by decide, by decide,
   C1_bit_column_consistency "name" "142X" "       " 142
     [List.replicate 142 false] (by decide)
     (by intro r hr; rw [List.mem_singleton] at hr; subst hr; simp)
     (by decide) (by decide) (by decide)⟩

/-- C3 counterexample: on the scenario table (`RA` format `'1D'`,
`FLAGS` format `'9X'`) the Schema Emitter pads every line with
`padding = 7*' '` and closes with `'       primary key ()\n       )\n'`,
so its output is not the 3-space-padded, unpadded-`)` text the claim
states. -/
theorem C3_counterexample :
    create_schema_from_fits
        [raColumn (PyVal.num (PyNum.finite 1)) (PyVal.num (PyNum.finite 2)),
         flagsColumn] "T" "" []
      ≠ Except.ok
          "create table if not exists T (\n   RA DOUBLE,\n   FLAGS1 BIGINT UNSIGNED,\n   primary key ()\n)" := by
  decide

/-- C3 (amended): on the scenario table with records
`FLAGS = [[T,F,T,T,F,T,T,T,F], [F]*9]`, the Materializer yields exactly
the columns `RA` (the two values unchanged) and `FLAGS1` (record 1
packed to `1+4+8+32+64+128 = 237`, record 2 packed to `0`), and the
Schema Emitter with table name `T` and empty primary key produces
exactly the 7-space-padded text with the padded closing lines. -/
theorem C3_scenario_amended (a b : PyVal) :
    materialized [raColumn a b, flagsColumn] none
      = Except.ok ⟨[("RA", [a, b]),
          ("FLAGS1", [PyVal.num (PyNum.finite 237), PyVal.num (PyNum.finite 0)])],
          2⟩ ∧
    create_schema_from_fits [raColumn a b, flagsColumn] "T" "" []
      = Except.ok
          "create table if not exists T (\n       RA DOUBLE,\n       FLAGS1 BIGINT UNSIGNED,\n       primary key ()\n       )\n" :=
  ⟨rfl, rfl⟩

/-- C4: with `column_mapping=None` the CSV emitter's header row is
exactly the materialized table's keys, in the table's key order. -/
theorem C4_default_header_is_table_keys (columns : List FitsColumn)
    (callbacks : Callbacks) (added_columns : Option (List (String × PyVal)))
    (t : MaterializedTable)
    (h : materialized columns added_columns = Except.ok t) :
    create_csv_file_from_fits columns none callbacks added_columns
      = Except.ok (t.cols.map Prod.fst,
          csv_body t (t.cols.map (fun p => (p.1, p.1))) callbacks) := by
  unfold create_csv_file_from_fits
  rw [h]
  simp [map_fst_pair_map]

/-- Witness for C4 on a one-column, one-record table. -/
theorem C4_witness :
    materialized [⟨"A", "1D", ColumnData.scalars [PyVal.str "x"]⟩] none
      = Except.ok ⟨[("A", [PyVal.str "x"])], 1⟩ ∧
    create_csv_file_from_fits [⟨"A", "1D", ColumnData.scalars [PyVal.str "x"]⟩]
        none noCallbacks none
      = Except.ok
          ((⟨[("A", [PyVal.str "x"])], 1⟩ : MaterializedTable).cols.map Prod.fst,
           csv_body ⟨[("A", [PyVal.str "x"])], 1⟩
             ((⟨[("A", [PyVal.str "x"])], 1⟩ : MaterializedTable).cols.map
               (fun p => (p.1, p.1)))
             noCallbacks) :=
  ⟨rfl,
   C4_default_header_is_table_keys
     [⟨"A", "1D", ColumnData.scalars [PyVal.str "x"]⟩] noCallbacks none
     ⟨[("A", [PyVal.str "x"])], 1⟩ rfl⟩

/-- Every data-row list a successful CSV emission returns is the image of
a raw row under `csv_cell`. -/
lemma create_csv_ok_rows (columns : List FitsColumn)
    (column_mapping : Option (List (String × String)))
    (callbacks : Callbacks) (added_columns : Option (List (String × PyVal)))
    (header : List String) (rows : List (List PyVal))
    (h : create_csv_file_from_fits columns column_mapping callbacks added_columns
          = Except.ok (header, rows)) :
    ∃ t mapping, rows = csv_body t mapping callbacks := by
  unfold create_csv_file_from_fits at h
  cases hm : materialized columns added_columns with
  | error e => rw [hm] at h; simp at h
  | ok t =>
    rw [hm] at h
    simp at h
    exact ⟨t, _, h.2.symm⟩

/-- C5: in every data row the CSV emitter writes, each value is the
serialization of a raw value, and the serialization passes strings
through unchanged, passes finite numeric values through, and turns every
non-finite numeric value into the two-character sentinel `\N`, which is
neither the literal `"nan"` nor `"inf"`. -/
theorem C5_csv_value_serialization (columns : List FitsColumn)
    (column_mapping : Option (List (String × String)))
    (callbacks : Callbacks) (added_columns : Option (List (String × PyVal)))
    (header : List String) (rows : List (List PyVal))
    (h : create_csv_file_from_fits columns column_mapping callbacks added_columns
          = Except.ok (header, rows)) :
    (∀ row ∈ rows, ∃ raw : List PyVal, row = raw.map csv_cell) ∧
    (∀ s, csv_cell (PyVal.str s) = PyVal.str s) ∧
    (∀ n : PyNum, n.isfinite = true → csv_cell (PyVal.num n) = PyVal.num n) ∧
    (∀ n : PyNum, n.isfinite = false →
      csv_cell (PyVal.num n) = PyVal.str nullMarker) ∧
    nullMarker.length = 2 ∧ nullMarker ≠ "nan" ∧ nullMarker ≠ "inf" := by
  refine ⟨?_, fun s => rfl, ?_, ?_, by decide, by decide, by decide⟩
  · intro row hrow
    obtain ⟨t, mapping, hrows⟩ := create_csv_ok_rows columns column_mapping
      callbacks added_columns header rows h
    rw [hrows] at hrow
    unfold csv_body at hrow
    rw [List.mem_map] at hrow
    obtain ⟨raw, _, hraw⟩ := hrow
    exact ⟨raw, hraw.symm⟩
  · intro n hn
    simp [csv_cell, hn]
  · intro n hn
    simp [csv_cell, hn]

/-- Witness for C5 on a table whose single cell is `NaN`: the emitted row
holds the sentinel. -/
theorem C5_witness :
    create_csv_file_from_fits
        [⟨"A", "1D", ColumnData.scalars [PyVal.num PyNum.nan]⟩]
        none noCallbacks none
      = Except.ok (["A"], [[PyVal.str nullMarker]]) ∧
    csv_cell (PyVal.num PyNum.nan) = PyVal.str nullMarker :=
  ⟨rfl,
   (C5_csv_value_serialization
      [⟨"A", "1D", ColumnData.scalars [PyVal.num PyNum.nan]⟩]
      none noCallbacks none ["A"] [[PyVal.str nullMarker]] rfl).2.2.2.1
     PyNum.nan rfl⟩

/-- C6: adding a constant column under a name already present fails with
the duplicate-column `RuntimeError` and produces no modified table, while
a fresh name appends a constant series of `row_count` copies of the
value. -/
theorem C6_add_column (t : MaterializedTable) (name : String) (value : PyVal) :
    ((t.cols.lookup name).isSome = true →
      add_columns_to t [(name, value)]
        = Except.error (PyErr.runtimeError
            ("Column named " ++ name
              ++ " already exists in the binary table data."))) ∧
    ((t.cols.lookup name).isSome = false →
      add_columns_to t [(name, value)]
        = Except.ok ⟨t.cols ++ [(name, List.replicate t.nrows value)], t.nrows⟩) := by
  constructor
  · intro h
    simp [add_columns_to, List.foldlM, h]
  · intro h
    simp [add_columns_to, List.foldlM, h]

/-- Witness for C6: on the table with single column `A`, re-adding `A`
fails with the duplicate-column error and adding `B` appends the constant
series. -/
theorem C6_witness :
    ((([(("A" : String), [PyVal.str "x"])] : List (String × List PyVal)).lookup
        "A").isSome = true) ∧
    add_columns_to ⟨[("A", [PyVal.str "x"])], 1⟩ [("A", PyVal.str "y")]
      = Except.error (PyErr.runtimeError
          ("Column named " ++ "A" ++ " already exists in the binary table data.")) ∧
    add_columns_to ⟨[("A", [PyVal.str "x"])], 1⟩ [("B", PyVal.str "y")]
      = Except.ok ⟨[("A", [PyVal.str "x"])]
          ++ [("B", List.replicate 1 (PyVal.str "y"))], 1⟩ :=
  ⟨by decide,
   (C6_add_column ⟨[("A", [PyVal.str "x"])], 1⟩ "A" (PyVal.str "y")).1 (by decide),
   (C6_add_column ⟨[("A", [PyVal.str "x"])], 1⟩ "B" (PyVal.str "y")).2 (by decide)⟩

/-- C7: a non-bit column of multiplicity 1 whose format code is not in
the fixed SQL-type mapping makes the Schema Emitter raise the unknown
format-code error (the `KeyError` carrying the format code) rather than
emit a default type, and a non-bit column of multiplicity other than 1
is skipped with no schema text emitted. -/
theorem C7_unknown_format_and_vector_skip (col : FitsColumn) (padding : String)
    (hX : isBitFormat (stripQuotes col.format) = false)
    (mult : Nat)
    (hp : parseNatInit (stripQuotes col.format) = some mult) :
    (mult = 1 → type_map.lookup (stripQuotes col.format) = none →
      write_schema_column col padding
        = Except.error (PyErr.keyError (stripQuotes col.format))) ∧
    (mult ≠ 1 → write_schema_column col padding = Except.ok "") := by
  constructor
  · intro h1 h2
    simp [write_schema_column, hX, hp, h1, h2]
  · intro h1
    simp [write_schema_column, hX, hp, h1]

/-- Witness for C7: format `'1Z'` (multiplicity 1, unmapped) raises the
format-code `KeyError`; format `'3D'` (multiplicity 3) is skipped. -/
theorem C7_witness :
    (isBitFormat (stripQuotes "1Z") = false) ∧
    (parseNatInit (stripQuotes "1Z") = some 1) ∧
    write_schema_column ⟨"C", "1Z", ColumnData.scalars []⟩ "       "
      = Except.error (PyErr.keyError (stripQuotes "1Z")) ∧
    write_schema_column ⟨"C", "3D", ColumnData.scalars []⟩ "       "
      = Except.ok "" :=
  ⟨by decide, by decide,
   (C7_unknown_format_and_vector_skip ⟨"C", "1Z", ColumnData.scalars []⟩ "       "
      (by decide) 1 (by decide)).1 rfl (by decide),
   (C7_unknown_format_and_vector_skip ⟨"C", "3D", ColumnData.scalars []⟩ "       "
      (by decide) 3 (by decide)).2 (by decide)⟩

/-- C8: the load-path header check returns without error exactly when the
csv file's header (stripped and comma-split) agrees with the target
table's introspected column names in count and in every name; any
disagreement raises the mismatch `RuntimeError`. -/
theorem C8_check_column_names_iff (column_names : List String)
    (header_line : String) :
    check_column_names column_names header_line = Except.ok ()
      ↔ splitCommas (stripWhitespace header_line) = column_names := by
  unfold check_column_names
  by_cases hlen : (splitCommas (stripWhitespace header_line)).length
      = column_names.length
  · rw [if_neg (by simp [hlen])]
    rw [check_each_ok, zip_forall_eq_iff _ _ hlen]
  · rw [if_pos hlen]
    constructor
    · intro h
      simp at h
    · intro h
      rw [h] at hlen
      exact absurd rfl hlen

/-- C9: a registered callback that itself raises `KeyError` on the
column's series is silently swallowed — the untransformed column data is
used — and the emission still succeeds rather than propagating the
failure. -/
theorem C9_callback_keyerror_swallowed (t : MaterializedTable)
    (callbacks : Callbacks) (colname : String) (coldata : List PyVal)
    (f : List PyVal → Except Unit (List PyVal))
    (h1 : t.cols.lookup colname = some coldata)
    (h2 : callbacks colname = some f)
    (h3 : f coldata = Except.error ()) :
    resolve_column t callbacks colname = coldata ∧
    (∀ columns column_mapping added_columns t2,
      materialized columns added_columns = Except.ok t2 →
      ∃ out, create_csv_file_from_fits columns column_mapping callbacks
          added_columns = Except.ok out) := by
  constructor
  · simp [resolve_column, h1, h2, h3]
  · intro columns cm adds t2 hm
    exact ⟨_, by unfold create_csv_file_from_fits; rw [hm]⟩

/-- Witness for C9: the callback registered for column `A` raises
`KeyError`, and the untransformed series is resolved. -/
theorem C9_witness :
    ((⟨[("A", [PyVal.str "v"])], 1⟩ : MaterializedTable).cols.lookup "A"
      = some [PyVal.str "v"]) ∧
    failingCallbacks "A" = some (fun _ => Except.error ()) ∧
    resolve_column ⟨[("A", [PyVal.str "v"])], 1⟩ failingCallbacks "A"
      = [PyVal.str "v"] :=
  ⟨rfl, rfl,
   (C9_callback_keyerror_swallowed ⟨[("A", [PyVal.str "v"])], 1⟩
      failingCallbacks "A" [PyVal.str "v"] (fun _ => Except.error ())
      rfl rfl rfl).1⟩

end Pserv
